import Mathlib

/-!
Verification of the bakery production predictor pipeline
(`src/utils/data_processing.py`, `src/utils/forecasting.py`,
`src/utils/recommendations.py`, and the forecasting page of `src/app.py`).

The pandas/numpy code is shallowly embedded:

* a DataFrame becomes a `Frame`: the ordered list of columns, each column a
  name together with its ordered list of cells;
* a cell is `Cell.null` (NaN/None), `Cell.num q` (a numeric value, or a string
  that `pd.to_numeric` parses), `Cell.date d` (a value that `pd.to_datetime`
  parses, identified with its day ordinal; the `%Y-%m-%d` formatting used by
  the code is injective and monotone, so a date is carried as its ordinal),
  or `Cell.str s` (text that neither parser accepts);
* floats are modelled by exact rationals; the special values produced by
  pandas division (`inf`/`-inf`/`NaN`) are modelled explicitly by `PFloat`
  where the code manipulates them;
* machine evaluation order (dict insertion order, first-match loops,
  `idxmax` returning the first maximiser, pandas `groupby` sorting its keys)
  is reproduced from the source.
-/

/-- A single cell of an uploaded table. `null` is NaN/None; `num` is a value
`pd.to_numeric` accepts; `date` is a value `pd.to_datetime` accepts, carried
as its day ordinal (day 0 = 1970-01-01, a Thursday); `str` is text that
neither parser accepts. -/
inductive Cell where
  | null : Cell
  | num : ℚ → Cell
  | date : Int → Cell
  | str : String → Cell
deriving DecidableEq, Repr

/-- An uploaded table: columns in order, each a (name, cells) pair. -/
abbrev Frame := List (String × List Cell)

/-- Substring test on character lists: does `pat` occur inside `s`?  Models
the Python expression `pat in s` used by the column resolvers. -/
def listSubstr (pat : List Char) : List Char → Bool
  | [] => pat.isEmpty
  | c :: tail => pat.isPrefixOf (c :: tail) || listSubstr pat tail

/-- Python `pat in s` for strings. -/
def strContains (s pat : String) : Bool := listSubstr pat.toList s.toList

/-- ASCII lowercasing of one character (`str.lower()`; the synonym tables and
all inputs considered here are ASCII). -/
def lowerChar (c : Char) : Char :=
  if 65 ≤ c.toNat ∧ c.toNat ≤ 90 then Char.ofNat (c.toNat + 32) else c

/-- Is this a whitespace character for `str.strip()`? -/
def isSpaceChar (c : Char) : Bool := c = ' ' ∨ c = '\t' ∨ c = '\n' ∨ c = '\r'

/-- `col.lower().strip()` on a column name. -/
def pyNormName (s : String) : String :=
  String.mk
    ((((s.toList.map lowerChar).dropWhile isSpaceChar).reverse.dropWhile
        isSpaceChar).reverse)

/-- Lowercase and trim every column name:
`data.columns = [col.lower().strip() for col in data.columns]`. -/
def lowerFrame (f : Frame) : Frame :=
  f.map (fun col => (pyNormName col.1, col.2))

/-- Column names of a frame, in order. -/
def colNames (f : Frame) : List String := f.map (·.1)

/-- Cells of the first column named `n` (the required columns are distinctly
named in every run the validator accepts, so first match suffices). -/
def getCol (f : Frame) (n : String) : List Cell :=
  ((f.find? (fun col => col.1 == n)).map (·.2)).getD []

/-- `df.empty`: true when the frame has no columns or no rows. -/
def frameEmpty (f : Frame) : Bool :=
  match f with
  | [] => true
  | col :: _ => col.2.isEmpty

/-- The synonym table `required_columns` of `validate_data` (identical to
`column_patterns` in `preprocess_data`), in dict insertion order. -/
def requiredColumns : List (String × List String) :=
  [("date", ["date", "datetime", "day", "sale_date", "transaction_date",
             "date of sale", "sales date"]),
   ("item", ["item", "product", "product_name", "item_name", "item_type",
             "product type", "goods", "bakery item"]),
   ("quantity", ["quantity", "qty", "units", "units_sold", "quantity_sold",
                 "count", "number sold", "amount sold"]),
   ("revenue", ["revenue", "sales", "amount", "sales_amount", "income",
                "sales revenue", "total sales", "price"]),
   ("cogs", ["cogs", "cost", "cost_of_goods_sold", "costs", "expense",
             "expenses", "production cost", "cost price"])]

/-- Column resolution as `validate_data` performs it for one canonical field:
for each synonym in priority order, first try an exact match against the
column names, then fall back to the first column containing the synonym as a
substring.  Returns the matched actual column name. -/
def findColumnV (cols : List String) (possible : List String) : Option String :=
  possible.findSome? (fun nm =>
    if cols.contains nm then some nm
    else cols.find? (fun c => strContains c nm))

/-- The `found_columns` mapping of `validate_data`: canonical field name to
actual column name, for the fields that resolved. -/
def foundColumnsV (cols : List String) : List (String × String) :=
  requiredColumns.filterMap (fun rc =>
    (findColumnV cols rc.2).map (fun c => (rc.1, c)))

/-- The canonical fields `validate_data` fails to resolve, in table order. -/
def missingColumnsV (cols : List String) : List String :=
  (requiredColumns.filter (fun rc => (findColumnV cols rc.2).isNone)).map (·.1)

/-- One collected validation message.  Each constructor stands for one
`validation_errors.append(...)` site of `validate_data` (the human-readable
message text is determined by the constructor and its arguments). -/
inductive Issue where
  | dateNull (col : String) (n : Nat) : Issue
  | dateParseErr (col : String) : Issue
  | dateParseHint : Issue
  | numNull (field col : String) (n : Nat) : Issue
  | numNonNumeric (field col : String) (n : Nat) : Issue
  | numNonNumericRows (rows : List Nat) : Issue
  | itemNull (col : String) (n : Nat) : Issue
deriving DecidableEq, Repr

/-- Does `pd.to_datetime` accept this cell?  Dates and numbers parse (a
number is read as an epoch offset); plain text raises. -/
def datetimeOk : Cell → Bool
  | Cell.str _ => false
  | _ => true

/-- `pd.to_numeric(value, errors="coerce")` on one cell: numeric values
survive, everything else (nulls, dates, text) becomes NaN (`none`). -/
def numericCoerce : Cell → Option ℚ
  | Cell.num q => some q
  | _ => none

/-- Count of null cells in a column. -/
def nullCount (cells : List Cell) : Nat :=
  (cells.filter (fun c => c == Cell.null)).length

/-- Messages `validate_data` collects for the resolved date column: if any
value is null, only the null count is reported (the `else` branch skips the
`pd.to_datetime` attempt); otherwise a parse failure appends the error and
the format-hint messages. -/
def dateColIssues (col : String) (cells : List Cell) : List Issue :=
  if 0 < nullCount cells then [Issue.dateNull col (nullCount cells)]
  else if cells.any (fun c => !datetimeOk c) then
    [Issue.dateParseErr col, Issue.dateParseHint]
  else []

/-- Messages `validate_data` collects for one resolved numeric column:
a null-count message when nulls are present, then a non-numeric-count message
plus the first five offending row indices when coercion leaves NaNs (the
NaNs left by coercion include the original nulls). -/
def numColIssues (field col : String) (cells : List Cell) : List Issue :=
  let nulls :=
    if 0 < nullCount cells then [Issue.numNull field col (nullCount cells)] else []
  let coerced := cells.map numericCoerce
  let badIdx := ((List.range cells.length).filter
    (fun i => (coerced.getD i none).isNone)).take 5
  let bad := (coerced.filter (·.isNone)).length
  nulls ++
    (if 0 < bad then [Issue.numNonNumeric field col bad, Issue.numNonNumericRows badIdx]
     else [])

/-- Messages `validate_data` collects for the resolved item column. -/
def itemColIssues (col : String) (cells : List Cell) : List Issue :=
  if 0 < nullCount cells then [Issue.itemNull col (nullCount cells)] else []

/-- Result of `validate_data`: the empty-file early return, the
missing-columns early return, or the collected list of validation messages
(the function returns `(True, ...)` exactly when that list is empty). -/
inductive ValidateResult where
  | emptyData : ValidateResult
  | missingCols (missing : List String) : ValidateResult
  | report (issues : List Issue) : ValidateResult
deriving DecidableEq, Repr

/-- The boolean `validate_data` returns alongside its message. -/
def ValidateResult.ok : ValidateResult → Bool
  | ValidateResult.report issues => issues.isEmpty
  | _ => false

/-- The resolved actual column name for a canonical field (defined when
resolution succeeded for every field). -/
def resolvedCol (found : List (String × String)) (field : String) : String :=
  ((found.find? (fun p => p.1 == field)).map (·.2)).getD ""

/-- The second phase of `validate_data`, given the resolved columns: date
check, then the three numeric checks in dict order (quantity, revenue,
cogs), then the item check. -/
def validateIssues (f : Frame) (found : List (String × String)) : List Issue :=
  dateColIssues (resolvedCol found "date") (getCol f (resolvedCol found "date")) ++
  numColIssues "quantity" (resolvedCol found "quantity")
    (getCol f (resolvedCol found "quantity")) ++
  numColIssues "revenue" (resolvedCol found "revenue")
    (getCol f (resolvedCol found "revenue")) ++
  numColIssues "cogs" (resolvedCol found "cogs")
    (getCol f (resolvedCol found "cogs")) ++
  itemColIssues (resolvedCol found "item") (getCol f (resolvedCol found "item"))

/-- `validate_data` of `src/utils/data_processing.py`. -/
def validateData (data : Frame) : ValidateResult :=
  if frameEmpty data then ValidateResult.emptyData
  else
    let f := lowerFrame data
    let missing := missingColumnsV (colNames f)
    if missing.isEmpty then
      ValidateResult.report (validateIssues f (foundColumnsV (colNames f)))
    else ValidateResult.missingCols missing

/-- Column resolution as `preprocess_data` performs it for one canonical
field: first the exact matches `[col for col in df.columns if col in
patterns]` (taking the first, in column order), then the substring-match loop
with columns outer and patterns inner. -/
def findColumnP (cols : List String) (patterns : List String) : Option String :=
  match cols.find? (fun c => patterns.contains c) with
  | some c => some c
  | none => cols.find? (fun c => patterns.any (fun p => strContains c p))

/-- The `column_mapping` built by `preprocess_data` (canonical name to actual
column), in dict insertion order. -/
def columnMappingP (cols : List String) : List (String × String) :=
  requiredColumns.filterMap (fun rc =>
    (findColumnP cols rc.2).map (fun c => (rc.1, c)))

/-- `rename_dict = {v: k for k, v in column_mapping.items()}`: the inverted
mapping from actual column to canonical name; when two canonical names
resolved to the same actual column, the later entry overwrites the earlier
one, exactly as the dict comprehension does. -/
def renameDict (mapping : List (String × String)) : List (String × String) :=
  mapping.foldl
    (fun acc p => (acc.filter (fun q => q.1 ≠ p.2)) ++ [(p.2, p.1)]) []

/-- `df.rename(columns=rename_dict)`: every column whose name is a key of the
dict is renamed to the associated value. -/
def renameFrame (f : Frame) (dict : List (String × String)) : Frame :=
  f.map (fun col => (((dict.find? (fun p => p.1 == col.1)).map (·.2)).getD col.1,
                     col.2))

/-- One row of a renamed frame, restricted to the five canonical columns. -/
structure RawRow where
  date : Cell
  item : Cell
  quantity : Cell
  revenue : Cell
  cogs : Cell
deriving DecidableEq, Repr

/-- Rows of the renamed frame (the five canonical columns; any extra columns
are untouched by the pipeline and carry no claim content). -/
def frameRows (f : Frame) : List RawRow :=
  (List.range ((getCol f "date").length)).map (fun i =>
    { date := (getCol f "date").getD i Cell.null
      item := (getCol f "item").getD i Cell.null
      quantity := (getCol f "quantity").getD i Cell.null
      revenue := (getCol f "revenue").getD i Cell.null
      cogs := (getCol f "cogs").getD i Cell.null })

/-- `pd.to_datetime(df["date"], errors="coerce")` on one cell: parseable
values give their day ordinal (a numeric value is read as an epoch offset),
everything else becomes NaT (`none`).  With `errors="coerce"` the call never
raises, so the `except` retry with `format="mixed"` in the source is
unreachable and is not modelled. -/
def toDatetimeCoerce : Cell → Option Int
  | Cell.date d => some d
  | Cell.num q => some ⌊q⌋
  | _ => none

/-- Pandas float values as produced by the profit-margin division. -/
inductive PFloat where
  | fin (q : ℚ) : PFloat
  | pinf : PFloat
  | ninf : PFloat
  | nan : PFloat
deriving DecidableEq, Repr

/-- Pandas division `a / b` on floats (exact rationals plus the special
values): division by zero gives `±inf`, and `0/0` gives NaN. -/
def pdiv (a b : ℚ) : PFloat :=
  if b = 0 then
    if a = 0 then PFloat.nan else if 0 < a then PFloat.pinf else PFloat.ninf
  else PFloat.fin (a / b)

/-- Multiplication of a pandas float by the positive constant 100. -/
def pmul100 : PFloat → PFloat
  | PFloat.fin q => PFloat.fin (q * 100)
  | x => x

/-- `replace([np.inf, -np.inf], np.nan)` followed by `fillna(0)`. -/
def squashNonFinite : PFloat → ℚ
  | PFloat.fin q => q
  | _ => 0

/-- `(df["profit"] / df["revenue"]) * 100` with infinities replaced by NaN
and NaN filled with 0, as in `preprocess_data`. -/
def profitMarginOf (profit revenue : ℚ) : ℚ :=
  squashNonFinite (pmul100 (pdiv profit revenue))

/-- Day name of a day ordinal (day 0 = 1970-01-01 was a Thursday); models
`df["date"].dt.day_name()`. -/
def dayNameOf (d : Int) : String :=
  match (d + 4) % 7 with
  | 0 => "Sunday" | 1 => "Monday" | 2 => "Tuesday" | 3 => "Wednesday"
  | 4 => "Thursday" | 5 => "Friday" | _ => "Saturday"

/-- One fully processed row.  The remaining calendar display columns (month,
year, day, week_of_year) are pure functions of `date` and are referenced by
no claim; they are not replicated here. -/
structure OutRow where
  date : Int
  item : Cell
  quantity : ℚ
  revenue : ℚ
  cogs : ℚ
  profit : ℚ
  profitMargin : ℚ
  dayOfWeek : String
deriving DecidableEq, Repr

/-- The row-level part of `preprocess_data`: a row survives exactly when its
date parses, its item is non-null, and its quantity is numeric (the date
coercion drops unparseable dates first, and `dropna(subset=["date", "item",
"quantity"])` drops the rest); revenue and cogs coercion failures are filled
with 0; then the derived columns are added. -/
def processRow (r : RawRow) : Option OutRow :=
  match toDatetimeCoerce r.date with
  | none => none
  | some d =>
    if r.item = Cell.null then none
    else
      match numericCoerce r.quantity with
      | none => none
      | some q =>
        let rev := (numericCoerce r.revenue).getD 0
        let cg := (numericCoerce r.cogs).getD 0
        some { date := d, item := r.item, quantity := q, revenue := rev,
               cogs := cg, profit := rev - cg,
               profitMargin := profitMarginOf (rev - cg) rev,
               dayOfWeek := dayNameOf d }

/-- Insertion of a row into a list sorted by date.  `sort_values("date")`
delegates to the numpy default sort, whose ordering of rows with equal dates
is not specified by the repository code; this model realises one admissible
date-ordered permutation. -/
def insertByDate (r : OutRow) : List OutRow → List OutRow
  | [] => [r]
  | x :: xs => if r.date < x.date then r :: x :: xs else x :: insertByDate r xs

/-- Sort rows ascending by date. -/
def sortByDate (rows : List OutRow) : List OutRow :=
  rows.foldr insertByDate []

/-- `preprocess_data` of `src/utils/data_processing.py`: lowercase the column
names, resolve and rename columns, fail when a canonical column is still
absent (the `ValueError` raise, modelled by `Except.error`), then coerce,
drop, derive and sort. -/
def preprocessData (data : Frame) : Except String (List OutRow) :=
  let f := lowerFrame data
  let renamed := renameFrame f (renameDict (columnMappingP (colNames f)))
  match (["date", "item", "quantity", "revenue", "cogs"].find?
          (fun c => !(colNames renamed).contains c)) with
  | some c => Except.error c
  | none =>
    Except.ok (sortByDate ((frameRows renamed).filterMap processRow))

/-- One row of the Prophet forecast frame handed to
`generate_production_recommendations` (columns `ds`, `yhat`, `yhat_lower`,
`yhat_upper`). -/
structure ForecastRow where
  ds : Int
  yhat : ℚ
  yhatLower : ℚ
  yhatUpper : ℚ
deriving DecidableEq, Repr

/-- The buffer multiplication and ceiling of line 25/28/29 of
`recommendations.py`: `np.ceil(value * (1 + buffer_percentage / 100))`. -/
def ceilBuf (buffer x : ℚ) : Int := ⌈x * (1 + buffer / 100)⌉

/-- Numpy `round()` (half to even), applied to `yhat` for the
`Forecasted Sales` column. -/
def roundHalfEven (q : ℚ) : Int :=
  if q - ⌊q⌋ < 1 / 2 then ⌊q⌋
  else if (1 : ℚ) / 2 < q - ⌊q⌋ then ⌊q⌋ + 1
  else if ⌊q⌋ % 2 = 0 then ⌊q⌋ else ⌊q⌋ + 1

/-- `forecast[forecast["ds"] >= now]`: the future-only rows, in input order
(`reference_now` is `datetime.now()` in the source; it is a parameter here
so the boundary is explicit). -/
def futureForecast (now : Int) (forecast : List ForecastRow) : List ForecastRow :=
  forecast.filter (fun r => now ≤ r.ds)

/-- One row of `daily_plan` as of line 46 of `recommendations.py` (the
`Date` string column is carried as the day ordinal it formats). -/
structure PlanRow where
  date : Int
  forecastedSales : Int
  recommendedProduction : Int
  minProduction : Int
  maxProduction : Int
  uncertainty : Int
  riskLevel : String
deriving DecidableEq, Repr

/-- The `Uncertainty` column values of the future plan, in order. -/
def uncList (buffer : ℚ) (now : Int) (forecast : List ForecastRow) : List ℚ :=
  (futureForecast now forecast).map
    (fun r => ((ceilBuf buffer r.yhatUpper - ceilBuf buffer r.yhatLower : Int) : ℚ))

/-- Mean of the uncertainty column (`.mean()`; NaN for the empty plan, but
then the comparison below is false anyway). -/
def uncMean (us : List ℚ) : ℚ := us.sum / us.length

/-- Sum of squared deviations from the mean; the sample standard deviation
`.std()` (ddof = 1) is `Real.sqrt (uncM2 us / (us.length - 1))`. -/
def uncM2 (us : List ℚ) : ℚ := (us.map (fun u => (u - uncMean us) ^ 2)).sum

/-- The high-risk test of line 53, `Uncertainty > avg + 1.5 * std`, in exact
arithmetic.  `std` is the sample standard deviation, which is NaN when the
plan has fewer than two rows (the comparison is then false); for two or more
rows, since `std ≥ 0`, the comparison is equivalent to
`mean < u` together with `(9/4) * M2 < (u - mean)^2 * (n - 1)`,
which avoids the square root and is decidable over `ℚ`. -/
def isHighRisk (us : List ℚ) (u : ℚ) : Prop :=
  2 ≤ us.length ∧ uncMean us < u ∧
    (9 / 4 : ℚ) * uncM2 us < (u - uncMean us) ^ 2 * ((us.length : ℚ) - 1)

instance (us : List ℚ) (u : ℚ) : Decidable (isHighRisk us u) := by
  unfold isHighRisk; infer_instance

/-- Lines 25-53 of `recommendations.py`: the full future daily plan with
buffered quantities, uncertainty, and risk level. -/
def dailyPlan0 (forecast : List ForecastRow) (buffer : ℚ) (now : Int) :
    List PlanRow :=
  let us := uncList buffer now forecast
  (futureForecast now forecast).map (fun r =>
    let mn := ceilBuf buffer r.yhatLower
    let mx := ceilBuf buffer r.yhatUpper
    { date := r.ds
      forecastedSales := roundHalfEven r.yhat
      recommendedProduction := ceilBuf buffer r.yhat
      minProduction := mn
      maxProduction := mx
      uncertainty := mx - mn
      riskLevel := if isHighRisk us ((mx - mn : Int) : ℚ) then "High" else "Normal" })

/-- The mutation `generate_additional_recommendations` applies to the
`daily_plan` object it shares with its caller: `Percent_Change =
(today - yesterday) / yesterday * 100` is NaN on the first row (its
`Prev_Production` is NaN) and on rows where the previous recommendation is 0
and the change is 0 (`0/0`; a nonzero change over 0 gives `±inf`, which
`dropna` keeps), and `dropna(subset=["Percent_Change"], inplace=True)`
removes those rows from the shared frame.  The empty plan takes the early
branch and is not touched. -/
def mutatePlan (plan : List PlanRow) : List PlanRow :=
  match plan with
  | [] => []
  | p0 :: rest =>
    ((p0 :: rest).zip rest).filterMap (fun pr =>
      if pr.1.recommendedProduction = 0 ∧ pr.2.recommendedProduction = 0 then none
      else some pr.2)

/-- A row of the four-column `daily_plan` put into the returned bundle
(`Date`, `Forecasted Sales`, `Recommended Production`, `Risk Level`). -/
structure DailyPlanEntry where
  date : Int
  forecastedSales : Int
  recommendedProduction : Int
  riskLevel : String
deriving DecidableEq, Repr

/-- A row of the five-column `high_risk_days` table of the bundle. -/
structure HighRiskEntry where
  date : Int
  forecastedSales : Int
  recommendedProduction : Int
  uncertainty : Int
  riskLevel : String
deriving DecidableEq, Repr

/-- The recommendations dictionary built at lines 91-101 of
`recommendations.py`.  The two generated prose strings (`risk_assessment`,
`additional_recommendations`) are deterministic templated text over the
numbers modelled here and carry no claim content; they are not replicated,
but the data effect of building them (the in-place `dropna`) is, in
`mutatePlan`. -/
structure RecommendationBundle where
  dailyPlan : List DailyPlanEntry
  highRiskDays : List HighRiskEntry
  avgDailyProduction : ℚ
  totalProduction : Int
  peakProduction : Int
  peakProductionDate : String
  bufferPercentage : ℚ
deriving DecidableEq, Repr

/-- The `%Y-%m-%d` formatting of line 36, modelled by rendering the day
ordinal (the formatting is injective, so nothing is conflated). -/
def formatDate (d : Int) : String := toString d

/-- `generate_production_recommendations` of `src/utils/recommendations.py`.
The aggregate statistics are computed at lines 71-80, before the call that
mutates `daily_plan`; `peak_production_date` uses `idxmax`, which returns the
first maximising row; the returned `daily_plan` is the shared frame after the
mutation. -/
def generateProductionRecommendations (forecast : List ForecastRow)
    (buffer : ℚ) (now : Int) : RecommendationBundle :=
  let plan0 := dailyPlan0 forecast buffer now
  let highRisk := plan0.filter (fun r => r.riskLevel == "High")
  let recs := plan0.map (·.recommendedProduction)
  let aggregates : ℚ × Int × Int × String :=
    match plan0 with
    | [] => (0, 0, 0, "N/A")
    | p :: _ =>
      let peak := recs.foldl max p.recommendedProduction
      ((recs.sum : ℚ) / recs.length, recs.sum, peak,
       formatDate ((((plan0.find? (fun r => r.recommendedProduction = peak)).map
         (·.date)).getD p.date)))
  { dailyPlan := (mutatePlan plan0).map (fun r =>
      { date := r.date, forecastedSales := r.forecastedSales,
        recommendedProduction := r.recommendedProduction,
        riskLevel := r.riskLevel })
    highRiskDays := highRisk.map (fun r =>
      { date := r.date, forecastedSales := r.forecastedSales,
        recommendedProduction := r.recommendedProduction,
        uncertainty := r.uncertainty, riskLevel := r.riskLevel })
    avgDailyProduction := aggregates.1
    totalProduction := aggregates.2.1
    peakProduction := aggregates.2.2.1
    peakProductionDate := aggregates.2.2.2
    bufferPercentage := buffer }

/-- One row of the preprocessed dataset as the forecasting page of
`src/app.py` consumes it (item labels are strings there). -/
structure SalesRow where
  date : Int
  item : String
  quantity : ℚ
  revenue : ℚ
  cogs : ℚ
deriving DecidableEq, Repr

/-- Insert a date key into a strictly sorted key list (no duplicates),
keeping it sorted: the key order `pandas.groupby` produces. -/
def insertKey (d : Int) : List Int → List Int
  | [] => [d]
  | x :: xs =>
    if d < x then d :: x :: xs else if d = x then x :: xs else x :: insertKey d xs

/-- The sorted distinct keys of a date list. -/
def sortedKeys (ds : List Int) : List Int := ds.foldr insertKey []

/-- `groupby(date)[quantity].sum()` on a (date, quantity) series: one row per
distinct date, dates ascending, quantities summed.  Used both by the
All-Products aggregation in `app.py` and by the duplicate-date collapse in
`train_forecast_model`. -/
def groupDates (rows : List (Int × ℚ)) : List (Int × ℚ) :=
  (sortedKeys (rows.map (·.1))).map (fun d =>
    (d, ((rows.filter (fun r => r.1 == d)).map (·.2)).sum))

/-- The `forecast_data` the Sales Forecasting page builds before its length
check: for a selected product, the rows filtered to that item (no
aggregation); for All Products, the per-date aggregate.  (The All-Products
branch also sums revenue and cogs, which the forecaster never reads; only
the (date, quantity) series is carried.) -/
def selectForecastData (data : List SalesRow) : Option String → List (Int × ℚ)
  | some product =>
    (data.filter (fun r => r.item == product)).map (fun r => (r.date, r.quantity))
  | none => groupDates (data.map (fun r => (r.date, r.quantity)))

/-- The data preparation of `train_forecast_model`: select the (date,
quantity) series and collapse duplicate dates by summing
(`prophet_data.groupby("ds")["y"].sum()`). -/
def prophetSeries (fd : List (Int × ℚ)) : List (Int × ℚ) := groupDates fd

/-- The minimum-data gate of the Sales Forecasting page (`src/app.py`,
`if len(forecast_data) < 14`): when the check fails only a warning is shown
and no model is fitted (`none`); otherwise fitting is attempted and the
external model receives the collapsed series (`some`). -/
def forecastGate (data : List SalesRow) (sel : Option String) :
    Option (List (Int × ℚ)) :=
  let fd := selectForecastData data sel
  if fd.length < 14 then none else some (prophetSeries fd)

/-! Concrete inputs used by the claim theorems and witnesses. -/

/-- A Prophet output with ten future rows; the first has a wide confidence
band (uncertainty 55), the rest are exact (uncertainty 0), which makes the
first row the only high-risk day. -/
def c1f : List ForecastRow :=
  [⟨1, 100, 80, 130⟩, ⟨2, 100, 100, 100⟩, ⟨3, 100, 100, 100⟩,
   ⟨4, 100, 100, 100⟩, ⟨5, 100, 100, 100⟩, ⟨6, 100, 100, 100⟩,
   ⟨7, 100, 100, 100⟩, ⟨8, 100, 100, 100⟩, ⟨9, 100, 100, 100⟩,
   ⟨10, 100, 100, 100⟩]

/-- The scenario input of the spec: columns
`["Sales Date", "Product Type", "Units Sold", "Total Sales", "Cost Price"]`
with well-typed rows. -/
def c2frame : Frame :=
  [("Sales Date", [Cell.date 1, Cell.date 2]),
   ("Product Type", [Cell.str "Bread", Cell.str "Cake"]),
   ("Units Sold", [Cell.num 10, Cell.num 5]),
   ("Total Sales", [Cell.num 100, Cell.num 50]),
   ("Cost Price", [Cell.num 60, Cell.num 20])]

/-- First row of `preprocess_data` output on `c2frame`. -/
def c2outBread : OutRow :=
  { date := 1, item := Cell.str "Bread", quantity := 10, revenue := 100,
    cogs := 60, profit := 40, profitMargin := 40, dayOfWeek := "Friday" }

/-- Second row of `preprocess_data` output on `c2frame`. -/
def c2outCake : OutRow :=
  { date := 2, item := Cell.str "Cake", quantity := 5, revenue := 50,
    cogs := 20, profit := 30, profitMargin := 60, dayOfWeek := "Saturday" }

/-- A dataset with twenty rows of one product spread over only ten distinct
dates (two rows per date). -/
def c3data : List SalesRow :=
  [⟨1, "Bread", 1, 2, 1⟩, ⟨2, "Bread", 1, 2, 1⟩, ⟨3, "Bread", 1, 2, 1⟩,
   ⟨4, "Bread", 1, 2, 1⟩, ⟨5, "Bread", 1, 2, 1⟩, ⟨6, "Bread", 1, 2, 1⟩,
   ⟨7, "Bread", 1, 2, 1⟩, ⟨8, "Bread", 1, 2, 1⟩, ⟨9, "Bread", 1, 2, 1⟩,
   ⟨10, "Bread", 1, 2, 1⟩, ⟨1, "Bread", 1, 2, 1⟩, ⟨2, "Bread", 1, 2, 1⟩,
   ⟨3, "Bread", 1, 2, 1⟩, ⟨4, "Bread", 1, 2, 1⟩, ⟨5, "Bread", 1, 2, 1⟩,
   ⟨6, "Bread", 1, 2, 1⟩, ⟨7, "Bread", 1, 2, 1⟩, ⟨8, "Bread", 1, 2, 1⟩,
   ⟨9, "Bread", 1, 2, 1⟩, ⟨10, "Bread", 1, 2, 1⟩]

/-- A dataset with fourteen rows of one product on fourteen distinct dates. -/
def c3wdata : List SalesRow :=
  [⟨1, "Bread", 1, 2, 1⟩, ⟨2, "Bread", 1, 2, 1⟩, ⟨3, "Bread", 1, 2, 1⟩,
   ⟨4, "Bread", 1, 2, 1⟩, ⟨5, "Bread", 1, 2, 1⟩, ⟨6, "Bread", 1, 2, 1⟩,
   ⟨7, "Bread", 1, 2, 1⟩, ⟨8, "Bread", 1, 2, 1⟩, ⟨9, "Bread", 1, 2, 1⟩,
   ⟨10, "Bread", 1, 2, 1⟩, ⟨11, "Bread", 1, 2, 1⟩, ⟨12, "Bread", 1, 2, 1⟩,
   ⟨13, "Bread", 1, 2, 1⟩, ⟨14, "Bread", 1, 2, 1⟩]

/-- A one-row forecast (the plan then has a single row). -/
def c4wf : List ForecastRow := [⟨1, 100, 80, 130⟩]

/-- The single plan row `dailyPlan0` derives from `c4wf` with buffer 10. -/
def c4wrow : PlanRow :=
  { date := 1, forecastedSales := 100, recommendedProduction := 110,
    minProduction := 88, maxProduction := 143, uncertainty := 55,
    riskLevel := "Normal" }

/-- An input whose date column holds a null together with a value that fails
datetime parsing, all other columns clean. -/
def c8frame : Frame :=
  [("date", [Cell.null, Cell.str "garbage"]),
   ("item", [Cell.str "Bread", Cell.str "Cake"]),
   ("quantity", [Cell.num 1, Cell.num 2]),
   ("revenue", [Cell.num 3, Cell.num 4]),
   ("cogs", [Cell.num 1, Cell.num 1])]

/-- An input whose date column has no nulls but one unparseable value. -/
def c8wframe : Frame :=
  [("date", [Cell.str "garbage"]),
   ("item", [Cell.str "Bread"]),
   ("quantity", [Cell.num 1]),
   ("revenue", [Cell.num 3]),
   ("cogs", [Cell.num 1])]

/-- An input with a zero-revenue row (canonical column names). -/
def c9frame : Frame :=
  [("date", [Cell.date 3, Cell.date 4]),
   ("item", [Cell.str "Bun", Cell.str "Rye"]),
   ("quantity", [Cell.num 2, Cell.num 4]),
   ("revenue", [Cell.num 0, Cell.num 50]),
   ("cogs", [Cell.num 5, Cell.num 20])]

/-- First output row of `preprocess_data` on `c9frame`: revenue 0, hence
profit margin squashed to 0. -/
def c9rowZero : OutRow :=
  { date := 3, item := Cell.str "Bun", quantity := 2, revenue := 0,
    cogs := 5, profit := -5, profitMargin := 0, dayOfWeek := "Sunday" }

/-- Second output row of `preprocess_data` on `c9frame`. -/
def c9rowOther : OutRow :=
  { date := 4, item := Cell.str "Rye", quantity := 4, revenue := 50,
    cogs := 20, profit := 30, profitMargin := 60, dayOfWeek := "Monday" }

/-! Helper lemmas. -/

/-- The sum of squared deviations is nonnegative. -/
lemma uncM2_nonneg (us : List ℚ) : 0 ≤ uncM2 us := by
  unfold uncM2
  apply List.sum_nonneg
  intro x hx
  obtain ⟨u, -, rfl⟩ := List.mem_map.mp hx
  positivity

/-- The plan has as many rows as the uncertainty column. -/
lemma dailyPlan0_length (f : List ForecastRow) (b : ℚ) (now : Int) :
    (dailyPlan0 f b now).length = (uncList b now f).length := by
  simp [dailyPlan0, uncList]

/-- Every plan row carries the risk level the line-53 test assigns to its
own uncertainty. -/
lemma riskLevel_of_mem {f : List ForecastRow} {b : ℚ} {now : Int} {r : PlanRow}
    (hr : r ∈ dailyPlan0 f b now) :
    r.riskLevel =
      if isHighRisk (uncList b now f) ((r.uncertainty : Int) : ℚ) then "High"
      else "Normal" := by
  simp only [dailyPlan0, List.mem_map] at hr
  obtain ⟨x, -, rfl⟩ := hr
  rfl

/-- In exact arithmetic, the squared form of the high-risk test agrees with
the mean-plus-1.5-standard-deviations comparison, for plans with at least
two rows. -/
lemma highRisk_iff_real (us : List ℚ) (u : ℚ) (h2 : 2 ≤ us.length) :
    isHighRisk us u ↔
      (uncMean us : ℝ) + 1.5 * Real.sqrt ((uncM2 us : ℝ) / ((us.length : ℝ) - 1))
        < (u : ℝ) := by
  have hn : (0 : ℝ) < (us.length : ℝ) - 1 := by
    have h : (2 : ℝ) ≤ (us.length : ℝ) := by exact_mod_cast h2
    linarith
  have hM : (0 : ℝ) ≤ (uncM2 us : ℝ) := by exact_mod_cast uncM2_nonneg us
  have hv : (0 : ℝ) ≤ (uncM2 us : ℝ) / ((us.length : ℝ) - 1) :=
    div_nonneg hM hn.le
  have hs0 : (0 : ℝ) ≤ Real.sqrt ((uncM2 us : ℝ) / ((us.length : ℝ) - 1)) :=
    Real.sqrt_nonneg _
  constructor
  · rintro ⟨-, hmu, hq⟩
    have hmu' : (uncMean us : ℝ) < (u : ℝ) := by exact_mod_cast hmu
    have hqR : (((9 : ℚ) / 4 * uncM2 us : ℚ) : ℝ) <
        (((u - uncMean us) ^ 2 * ((us.length : ℚ) - 1) : ℚ) : ℝ) :=
      Rat.cast_lt.mpr hq
    push_cast at hqR
    have hx : (0 : ℝ) < (2 / 3) * ((u : ℝ) - (uncMean us : ℝ)) := by linarith
    have hlt : Real.sqrt ((uncM2 us : ℝ) / ((us.length : ℝ) - 1)) <
        (2 / 3) * ((u : ℝ) - (uncMean us : ℝ)) := by
      rw [Real.sqrt_lt' hx, div_lt_iff₀ hn]
      nlinarith
    linarith
  · intro h
    have hmu' : (uncMean us : ℝ) < (u : ℝ) := by nlinarith
    have hx : (0 : ℝ) < (2 / 3) * ((u : ℝ) - (uncMean us : ℝ)) := by linarith
    have hlt : Real.sqrt ((uncM2 us : ℝ) / ((us.length : ℝ) - 1)) <
        (2 / 3) * ((u : ℝ) - (uncMean us : ℝ)) := by linarith
    rw [Real.sqrt_lt' hx, div_lt_iff₀ hn] at hlt
    refine ⟨h2, by exact_mod_cast hmu', ?_⟩
    refine (Rat.cast_lt (K := ℝ)).mp ?_
    push_cast
    nlinarith

/-- Membership is invariant under insertion. -/
lemma mem_insertByDate {r x : OutRow} {l : List OutRow} :
    r ∈ insertByDate x l ↔ r = x ∨ r ∈ l := by
  induction l with
  | nil => simp [insertByDate]
  | cons y ys ih =>
    simp only [insertByDate]
    split
    · simp
    · simp [ih]
      tauto

/-- Membership is invariant under the date sort. -/
lemma mem_sortByDate {r : OutRow} {l : List OutRow} : r ∈ sortByDate l ↔ r ∈ l := by
  induction l with
  | nil => simp [sortByDate]
  | cons y ys ih =>
    simp only [sortByDate, List.foldr] at ih ⊢
    rw [mem_insertByDate, ih]
    simp

/-- The profit-margin chain collapses to a plain conditional: zero exactly
when revenue is zero (the nonzero case is a finite rational, so the output
is finite in every case). -/
lemma profitMarginOf_eq (p rev : ℚ) :
    profitMarginOf p rev = if rev = 0 then 0 else p / rev * 100 := by
  unfold profitMarginOf pdiv
  split_ifs <;> rfl

/-- A surviving row of the row pipeline satisfies the derived-field
equations. -/
lemma processRow_fields {raw : RawRow} {r : OutRow} (h : processRow raw = some r) :
    r.profit = r.revenue - r.cogs ∧
    r.profitMargin = profitMarginOf r.profit r.revenue := by
  unfold processRow at h
  split at h
  · exact absurd h (by simp)
  · split at h
    · exact absurd h (by simp)
    · split at h
      · exact absurd h (by simp)
      · injection h with h
        subst h
        exact ⟨rfl, rfl⟩

/-! Claim theorems. -/

/-- C10, counterexample: the buffered-production formula
`ceil(point_estimate * (1 + buffer/100))` is NOT monotone non-decreasing in
the buffer percentage once negative point estimates are quantified over: at
`point_estimate = -100` the recommendation falls from -100 (buffer 0) to
-110 (buffer 10). -/
theorem c10_not_monotone_for_negative_forecast :
    ¬ ∀ (x b₁ b₂ : ℚ), b₁ ≤ b₂ → ceilBuf b₁ x ≤ ceilBuf b₂ x := by
  intro h
  have h1 := h (-100) 0 10 (by norm_num)
  have e1 : ceilBuf 0 (-100) = -100 := by
    unfold ceilBuf
    rw [show ((-100 : ℚ) * (1 + 0 / 100)) = ((-100 : ℤ) : ℚ) by norm_num]
    exact Int.ceil_intCast _
  have e2 : ceilBuf 10 (-100) = -110 := by
    unfold ceilBuf
    rw [show ((-100 : ℚ) * (1 + 10 / 100)) = ((-110 : ℤ) : ℚ) by norm_num]
    exact Int.ceil_intCast _
  rw [e1, e2] at h1
  norm_num at h1

/-- C10, amended: for every nonnegative point estimate, the recommended
production `ceil(point_estimate * (1 + buffer/100))` is monotone
non-decreasing in the buffer percentage. -/
theorem c10_monotone_for_nonneg_forecast (x b₁ b₂ : ℚ) (hx : 0 ≤ x)
    (hb : b₁ ≤ b₂) : ceilBuf b₁ x ≤ ceilBuf b₂ x := by
  unfold ceilBuf
  apply Int.ceil_mono
  have : 1 + b₁ / 100 ≤ 1 + b₂ / 100 := by linarith
  exact mul_le_mul_of_nonneg_left this hx

/-- C10, witness: instantiation of the amended monotonicity at
`point_estimate = 100`, buffers 0 and 10 (recommendations 100 and 110). -/
theorem c10_monotone_for_nonneg_forecast_witness :
    (0 : ℚ) ≤ 100 ∧ (0 : ℚ) ≤ 10 ∧ ceilBuf 0 100 ≤ ceilBuf 10 100 :=
  ⟨by norm_num, by norm_num,
   c10_monotone_for_nonneg_forecast 100 0 10 (by norm_num) (by norm_num)⟩

/-- C6: when no forecast row is future-dated, the bundle is returned without
raising, with `avg_daily_production = total_production = peak_production = 0`
and `peak_production_date = "N/A"` (and empty plan and high-risk tables). -/
theorem c6_empty_future_zero_aggregates (f : List ForecastRow) (b : ℚ)
    (now : Int) (h : futureForecast now f = []) :
    generateProductionRecommendations f b now =
      { dailyPlan := [], highRiskDays := [], avgDailyProduction := 0,
        totalProduction := 0, peakProduction := 0, peakProductionDate := "N/A",
        bufferPercentage := b } := by
  have hp : dailyPlan0 f b now = [] := by
    simp [dailyPlan0, h]
  simp [generateProductionRecommendations, hp, mutatePlan]

/-- C6, witness: a forecast whose only row is in the past produces the
all-zero placeholder bundle. -/
theorem c6_empty_future_zero_aggregates_witness :
    futureForecast 5 [(⟨0, 1, 1, 1⟩ : ForecastRow)] = [] ∧
    generateProductionRecommendations [(⟨0, 1, 1, 1⟩ : ForecastRow)] 10 5 =
      { dailyPlan := [], highRiskDays := [], avgDailyProduction := 0,
        totalProduction := 0, peakProduction := 0, peakProductionDate := "N/A",
        bufferPercentage := 10 } :=
  ⟨by simp [futureForecast], c6_empty_future_zero_aggregates _ _ _ (by simp [futureForecast])⟩

/-- C5: for every forecast row of the future plan,
`recommended_production = ceil(yhat * (1 + buffer/100))`, the minimum and
maximum apply the same formula to the lower and upper bounds (each ceiled
independently), and `uncertainty = max_production - min_production`; in the
spec scenario (point 100, bounds 80/130, buffer 10) this gives
(110, 88, 143, 55). -/
theorem c5_buffer_formulas :
    (∀ (f : List ForecastRow) (b : ℚ) (now : Int) (i : ℕ),
      ((dailyPlan0 f b now)[i]?).map
          (fun r => (r.recommendedProduction, r.minProduction, r.maxProduction,
                     r.uncertainty)) =
        ((futureForecast now f)[i]?).map
          (fun p => (⌈p.yhat * (1 + b / 100)⌉, ⌈p.yhatLower * (1 + b / 100)⌉,
                     ⌈p.yhatUpper * (1 + b / 100)⌉,
                     ⌈p.yhatUpper * (1 + b / 100)⌉ - ⌈p.yhatLower * (1 + b / 100)⌉))) ∧
    (dailyPlan0 [(⟨0, 100, 80, 130⟩ : ForecastRow)] 10 0).map
        (fun r => (r.recommendedProduction, r.minProduction, r.maxProduction,
                   r.uncertainty)) = [(110, 88, 143, 55)] := by
  constructor
  · intro f b now i
    simp only [dailyPlan0, List.getElem?_map, ceilBuf]
    cases (futureForecast now f)[i]? <;> rfl
  · norm_num [dailyPlan0, uncList, futureForecast, ceilBuf, isHighRisk, uncMean,
      uncM2, roundHalfEven]

/-- C4: a plan row is marked High exactly when its uncertainty strictly
exceeds `mean + 1.5 * std` (sample standard deviation) of the uncertainty
column of that plan, provided the plan has at least two rows; every row of a
plan with at most one row is Normal (the sample standard deviation is NaN
there and the line-53 comparison is false). -/
theorem c4_high_risk_iff_mean_plus_std (f : List ForecastRow) (b : ℚ)
    (now : Int) (r : PlanRow) (hr : r ∈ dailyPlan0 f b now) :
    ((dailyPlan0 f b now).length ≤ 1 → r.riskLevel = "Normal") ∧
    (2 ≤ (dailyPlan0 f b now).length →
      (r.riskLevel = "High" ↔
        (uncMean (uncList b now f) : ℝ)
            + 1.5 * Real.sqrt ((uncM2 (uncList b now f) : ℝ)
                / (((uncList b now f).length : ℝ) - 1))
          < ((r.uncertainty : Int) : ℝ))) := by
  have hrl := riskLevel_of_mem hr
  have hlen := dailyPlan0_length f b now
  constructor
  · intro h1
    rw [hrl, if_neg]
    rintro ⟨h2, -, -⟩
    omega
  · intro h2
    rw [hlen] at h2
    have hiff := highRisk_iff_real (uncList b now f) ((r.uncertainty : Int) : ℚ) h2
    constructor
    · intro hH
      by_cases hc : isHighRisk (uncList b now f) ((r.uncertainty : Int) : ℚ)
      · have := hiff.mp hc
        convert this using 2
      · rw [if_neg hc] at hrl
        rw [hrl] at hH
        exact absurd hH (by decide)
    · intro hineq
      rw [hrl, if_pos]
      apply hiff.mpr
      convert hineq using 2

/-- C4, witness: the single-row plan derived from `c4wf` (buffer 10) has its
row marked Normal, via the at-most-one-row branch of the risk theorem. -/
theorem c4_high_risk_iff_mean_plus_std_witness :
    c4wrow ∈ dailyPlan0 c4wf 10 0 ∧ c4wrow.riskLevel = "Normal" := by
  have hm : dailyPlan0 c4wf 10 0 = [c4wrow] := by
    norm_num [dailyPlan0, uncList, futureForecast, ceilBuf, isHighRisk, uncMean,
      uncM2, roundHalfEven, c4wf, c4wrow]
  have hmem : c4wrow ∈ dailyPlan0 c4wf 10 0 := by rw [hm]; exact List.mem_singleton.mpr rfl
  refine ⟨hmem, (c4_high_risk_iff_mean_plus_std c4wf 10 0 c4wrow hmem).1 ?_⟩
  rw [hm]
  norm_num

/-- C9: every row output by `preprocess_data` has `profit = revenue - cogs`
and a finite `profit_margin` equal to `profit / revenue * 100`, except that
it is 0 when revenue is 0 (the only source of a non-finite quotient in exact
arithmetic; the inf/NaN replacement chain maps those to 0). -/
theorem c9_profit_margin_finite_formula (data : Frame) (out : List OutRow)
    (h : preprocessData data = Except.ok out) (r : OutRow) (hr : r ∈ out) :
    r.profit = r.revenue - r.cogs ∧
    r.profitMargin = if r.revenue = 0 then 0 else r.profit / r.revenue * 100 := by
  simp only [preprocessData] at h
  split at h
  · exact absurd h (by simp)
  · injection h with h
    subst h
    rw [mem_sortByDate] at hr
    obtain ⟨raw, -, hpr⟩ := List.mem_filterMap.mp hr
    obtain ⟨h1, h2⟩ := processRow_fields hpr
    refine ⟨h1, ?_⟩
    rw [h2, profitMarginOf_eq]


/-- C9, witness: on `c9frame` the preprocessing succeeds and its
zero-revenue row gets profit margin 0 (with profit -5 = 0 - 5). -/
theorem c9_profit_margin_finite_formula_witness :
    preprocessData c9frame = Except.ok [c9rowZero, c9rowOther] ∧
    c9rowZero.revenue = 0 ∧ c9rowZero.profit = c9rowZero.revenue - c9rowZero.cogs ∧
    c9rowZero.profitMargin = 0 := by
  have hrows : frameRows (renameFrame (lowerFrame c9frame)
      (renameDict (columnMappingP (colNames (lowerFrame c9frame))))) =
      [⟨Cell.date 3, Cell.str "Bun", Cell.num 2, Cell.num 0, Cell.num 5⟩,
       ⟨Cell.date 4, Cell.str "Rye", Cell.num 4, Cell.num 50, Cell.num 20⟩] := by
    decide
  have hmiss : (["date", "item", "quantity", "revenue", "cogs"].find?
      (fun c => !(colNames (renameFrame (lowerFrame c9frame) (renameDict
        (columnMappingP (colNames (lowerFrame c9frame)))))).contains c)) = none := by
    decide
  have hp1 : processRow ⟨Cell.date 3, Cell.str "Bun", Cell.num 2, Cell.num 0, Cell.num 5⟩
      = some c9rowZero := by
    norm_num [processRow, toDatetimeCoerce, numericCoerce, profitMarginOf, pdiv,
      pmul100, squashNonFinite, dayNameOf, c9rowZero]
    exact fun h => absurd h (by decide)
  have hp2 : processRow ⟨Cell.date 4, Cell.str "Rye", Cell.num 4, Cell.num 50, Cell.num 20⟩
      = some c9rowOther := by
    norm_num [processRow, toDatetimeCoerce, numericCoerce, profitMarginOf, pdiv,
      pmul100, squashNonFinite, dayNameOf, c9rowOther]
    exact fun h => absurd h (by decide)
  have hp : preprocessData c9frame = Except.ok [c9rowZero, c9rowOther] := by
    simp only [preprocessData]
    rw [hmiss]
    rw [hrows]
    simp [hp1, hp2, sortByDate, insertByDate, c9rowZero, c9rowOther]
  have hz := c9_profit_margin_finite_formula c9frame [c9rowZero, c9rowOther] hp
    c9rowZero (List.mem_cons_self _ _)
  refine ⟨hp, by norm_num [c9rowZero], hz.1, ?_⟩
  rw [hz.2]
  norm_num [c9rowZero]

/-- C3, counterexample: on `c3data` (twenty rows of one product over ten
distinct dates) the page-level check passes (20 >= 14) and fitting is
attempted, yet the series handed to the forecaster after the duplicate-date
collapse has only 10 < 14 observations. -/
theorem c3_fit_attempted_below_collapsed_minimum :
    (selectForecastData c3data (some "Bread")).length = 20 ∧
    (forecastGate c3data (some "Bread")).map List.length = some 10 ∧
    (10 : ℕ) < 14 := by
  refine ⟨by decide, ?_, by decide⟩
  decide

/-- C3, amended: the minimum-data check is applied to the row count of the
grouped/filtered data BEFORE duplicate dates are collapsed: fitting is
skipped exactly when that pre-collapse count is below 14, and when it is
attempted the forecaster receives the series with duplicate dates collapsed
by summing. -/
theorem c3_gate_checks_precollapse_length :
    (∀ (data : List SalesRow) (sel : Option String),
      forecastGate data sel = none ↔ (selectForecastData data sel).length < 14) ∧
    (∀ (data : List SalesRow) (sel : Option String),
      14 ≤ (selectForecastData data sel).length →
      forecastGate data sel = some (prophetSeries (selectForecastData data sel))) := by
  constructor
  · intro data sel
    simp only [forecastGate]
    split <;> simp_all
  · intro data sel h
    simp only [forecastGate]
    rw [if_neg (by omega)]

/-- C3, witness: with fourteen single-date rows the gate fits, handing the
forecaster the fourteen-point collapsed series. -/
theorem c3_gate_checks_precollapse_length_witness :
    14 ≤ (selectForecastData c3wdata (some "Bread")).length ∧
    forecastGate c3wdata (some "Bread")
      = some (prophetSeries (selectForecastData c3wdata (some "Bread"))) :=
  ⟨by decide, c3_gate_checks_precollapse_length.2 c3wdata (some "Bread") (by decide)⟩

/-- C8, counterexample: on `c8frame` the date column holds a non-null value
(`"garbage"`) that fails datetime parsing, yet `validate_data` reports only
the null count for the date column and no parse-failure issue (the `else`
branch skips parsing whenever nulls are present).  Validation still returns
ok=false, but not for the reason the claim requires. -/
theorem c8_null_dates_suppress_parse_issue :
    validateData c8frame = ValidateResult.report [Issue.dateNull "date" 1] ∧
    (getCol (lowerFrame c8frame) "date").any
        (fun c => !(c == Cell.null) && !datetimeOk c) = true ∧
    (∀ col, Issue.dateParseErr col ∉ [Issue.dateNull "date" 1]) ∧
    (validateData c8frame).ok = false := by
  refine ⟨by decide, by decide, ?_, by decide⟩
  intro col
  simp

/-- C8, amended: a datetime parse failure on the date column is reported as
an issue whenever the column contains no nulls; when the column does contain
nulls, parsing is skipped and only the null count is reported, so validation
still returns ok=false, but without a parse-failure issue. -/
theorem c8_parse_failure_reported_without_nulls :
    (∀ (f : Frame) (found : List (String × String)),
      nullCount (getCol f (resolvedCol found "date")) = 0 →
      (getCol f (resolvedCol found "date")).any (fun c => !datetimeOk c) = true →
      Issue.dateParseErr (resolvedCol found "date") ∈ validateIssues f found) ∧
    (∀ (f : Frame) (found : List (String × String)),
      0 < nullCount (getCol f (resolvedCol found "date")) →
      Issue.dateNull (resolvedCol found "date")
          (nullCount (getCol f (resolvedCol found "date"))) ∈ validateIssues f found ∧
      validateIssues f found ≠ []) := by
  constructor
  · intro f found h0 hbad
    unfold validateIssues
    apply List.mem_append_left
    apply List.mem_append_left
    apply List.mem_append_left
    apply List.mem_append_left
    unfold dateColIssues
    rw [if_neg (by omega), if_pos hbad]
    simp
  · intro f found h0
    have hmem : Issue.dateNull (resolvedCol found "date")
        (nullCount (getCol f (resolvedCol found "date"))) ∈
          dateColIssues (resolvedCol found "date") (getCol f (resolvedCol found "date")) := by
      unfold dateColIssues
      rw [if_pos h0]
      simp
    refine ⟨?_, ?_⟩
    · unfold validateIssues
      apply List.mem_append_left
      apply List.mem_append_left
      apply List.mem_append_left
      apply List.mem_append_left
      exact hmem
    · intro hnil
      have : Issue.dateNull (resolvedCol found "date")
          (nullCount (getCol f (resolvedCol found "date"))) ∈ validateIssues f found := by
        unfold validateIssues
        apply List.mem_append_left
        apply List.mem_append_left
        apply List.mem_append_left
        apply List.mem_append_left
        exact hmem
      rw [hnil] at this
      exact absurd this (List.not_mem_nil _)

/-- C8, witness: on `c8wframe` (no nulls, one unparseable date) the parse
failure is reported. -/
theorem c8_parse_failure_reported_without_nulls_witness :
    nullCount (getCol (lowerFrame c8wframe)
        (resolvedCol (foundColumnsV (colNames (lowerFrame c8wframe))) "date")) = 0 ∧
    Issue.dateParseErr
        (resolvedCol (foundColumnsV (colNames (lowerFrame c8wframe))) "date") ∈
      validateIssues (lowerFrame c8wframe)
        (foundColumnsV (colNames (lowerFrame c8wframe))) :=
  ⟨by decide,
   c8_parse_failure_reported_without_nulls.1 (lowerFrame c8wframe)
     (foundColumnsV (colNames (lowerFrame c8wframe))) (by decide) (by decide)⟩

set_option maxHeartbeats 2000000 in
/-- C1: on `c1f` all ten forecast rows are future-dated, but the
`daily_plan` of the returned bundle holds only nine rows: the first future
day (date 1) is missing, dropped by the in-place
`dropna(subset=["Percent_Change"])` that `generate_additional_recommendations`
performs on the frame it shares with its caller.  That day is also the one
high-risk day, so `high_risk_days` ([1]) is not a subsequence of
`daily_plan` ([2..10]). -/
theorem c1_first_future_row_dropped_from_plan :
    (futureForecast 0 c1f).length = 10 ∧
    (generateProductionRecommendations c1f 10 0).dailyPlan.map (·.date)
      = [2, 3, 4, 5, 6, 7, 8, 9, 10] ∧
    (generateProductionRecommendations c1f 10 0).highRiskDays.map (·.date) = [1] := by
  refine ⟨by decide, ?_, ?_⟩ <;>
  · norm_num [generateProductionRecommendations, dailyPlan0, uncList, futureForecast,
      ceilBuf, roundHalfEven, uncMean, uncM2, isHighRisk, mutatePlan, formatDate, c1f,
      List.filterMap_cons]
    try decide

/-- C2: on the scenario input (columns `Sales Date`, `Product Type`,
`Units Sold`, `Total Sales`, `Cost Price`), `validate_data` resolves
`revenue` to the `sales date` column (the `sales` synonym substring-matches
it before the exact synonym `total sales` is ever tried), reports the date
column as non-numeric and returns ok=false — while `preprocess_data`, whose
resolver tries all exact synonyms first, maps the five fields to the five
distinct columns and succeeds. -/
theorem c2_validate_flags_scenario_preprocess_succeeds :
    foundColumnsV (colNames (lowerFrame c2frame)) =
      [("date", "sales date"), ("item", "product type"),
       ("quantity", "units sold"), ("revenue", "sales date"),
       ("cogs", "cost price")] ∧
    validateData c2frame = ValidateResult.report
      [Issue.numNonNumeric "revenue" "sales date" 2, Issue.numNonNumericRows [0, 1]] ∧
    (validateData c2frame).ok = false ∧
    columnMappingP (colNames (lowerFrame c2frame)) =
      [("date", "sales date"), ("item", "product type"),
       ("quantity", "units sold"), ("revenue", "total sales"),
       ("cogs", "cost price")] ∧
    preprocessData c2frame = Except.ok [c2outBread, c2outCake] := by
  refine ⟨by decide, by decide, by decide, by decide, ?_⟩
  have hrows : frameRows (renameFrame (lowerFrame c2frame)
      (renameDict (columnMappingP (colNames (lowerFrame c2frame))))) =
      [⟨Cell.date 1, Cell.str "Bread", Cell.num 10, Cell.num 100, Cell.num 60⟩,
       ⟨Cell.date 2, Cell.str "Cake", Cell.num 5, Cell.num 50, Cell.num 20⟩] := by
    decide
  have hmiss : (["date", "item", "quantity", "revenue", "cogs"].find?
      (fun c => !(colNames (renameFrame (lowerFrame c2frame) (renameDict
        (columnMappingP (colNames (lowerFrame c2frame)))))).contains c)) = none := by
    decide
  have hp1 : processRow ⟨Cell.date 1, Cell.str "Bread", Cell.num 10, Cell.num 100,
      Cell.num 60⟩ = some c2outBread := by
    norm_num [processRow, toDatetimeCoerce, numericCoerce, profitMarginOf, pdiv,
      pmul100, squashNonFinite, dayNameOf, c2outBread]
    exact fun h => absurd h (by decide)
  have hp2 : processRow ⟨Cell.date 2, Cell.str "Cake", Cell.num 5, Cell.num 50,
      Cell.num 20⟩ = some c2outCake := by
    norm_num [processRow, toDatetimeCoerce, numericCoerce, profitMarginOf, pdiv,
      pmul100, squashNonFinite, dayNameOf, c2outCake]
    exact fun h => absurd h (by decide)
  simp only [preprocessData]
  rw [hmiss]
  rw [hrows]
  simp [hp1, hp2, sortByDate, insertByDate, c2outBread, c2outCake]
